import Mathlib

/-!
Shallow embedding of the `egui_winit_wgpu_integrator` run loop (src/lib.rs).

The embedding follows the source closely:
* `SwapChainDescriptor` mirrors the `wgpu::SwapChainDescriptor` value `sc_desc`
  built at lines 51-57 (format `Rgba8UnormSrgb`, present mode `Mailbox`).
* `redraw` mirrors the `redraw` closure (lines 78-150): acquire the current
  frame (early return on error), build the `IntegrationInfo` handed to the app,
  invoke the app, store the measured frame time, submit, honour a requested
  window size, and compute the next `ControlFlow`.
* `handle_event` mirrors the `match event` dispatch (lines 152-169), with the
  `cfg!(windows)` guards as a boolean parameter.
* `seconds_since_midnight` mirrors lines 173-176 over exact rationals.
* `EventLoopProxy.send_event` / `request_repaint` mirror the repaint signal
  (lines 15-21).

Rust `f32`/`f64` values are modelled as exact rationals; machine sizes (`u32`)
as `Nat`.  External collaborators (the boxed `epi::App`, the window scale
factor, the wall clock, success or failure of frame acquisition, the measured
frame duration) are supplied per tick through a `TickEnv` record.
-/

namespace EguiWinitWgpu

/-- Pixel formats; the source only ever uses `Rgba8UnormSrgb` (line 53), the
second constructor exists so that constancy of the field is not vacuous. -/
inductive TextureFormat where
  | Rgba8UnormSrgb
  | Bgra8UnormSrgb
deriving DecidableEq

/-- Present modes of `wgpu`; the source uses `Mailbox` (line 56). -/
inductive PresentMode where
  | Immediate
  | Mailbox
  | Fifo
deriving DecidableEq

/-- The texture usages that occur in the source (line 52). -/
inductive TextureUsage where
  | RENDER_ATTACHMENT
deriving DecidableEq

/-- Mirror of `wgpu::SwapChainDescriptor` as used in `sc_desc` (lines 51-57). -/
structure SwapChainDescriptor where
  usage : TextureUsage
  format : TextureFormat
  width : Nat
  height : Nat
  present_mode : PresentMode
deriving DecidableEq

/-- Mirror of `winit::event_loop::ControlFlow` restricted to the constructors
the source assigns (lines 141-148). -/
inductive ControlFlow where
  | Poll
  | Wait
  | Exit
deriving DecidableEq

/-- Mirror of `epi::backend::AppOutput` (destructured at line 131): the app's
side-channel output record. -/
structure AppOutput where
  quit : Bool
  window_size : Option (ℚ × ℚ)

/-- The part of `egui::Output` the loop reads: `egui_output.needs_repaint`
(line 143), produced by `platform.end_frame()`. -/
structure EguiOutput where
  needs_repaint : Bool

/-- Mirror of a `chrono` local time value: whole seconds since local midnight
plus the sub-second nanosecond counter (lines 174-175). -/
structure LocalTime where
  num_seconds_from_midnight : Nat
  nanosecond : Nat
deriving DecidableEq

/-- A local time reading that is not inside a leap second: seconds are below
86400 and nanoseconds below 10^9. -/
def LocalTime.valid (t : LocalTime) : Prop :=
  t.num_seconds_from_midnight < 86400 ∧ t.nanosecond < 1000000000

instance (t : LocalTime) : Decidable t.valid := by
  unfold LocalTime.valid
  infer_instance

/-- Mirror of `seconds_since_midnight` (lines 173-176):
`num_seconds_from_midnight as f64 + 1e-9 * nanosecond as f64`, with the
floating-point arithmetic modelled exactly over the rationals. -/
def seconds_since_midnight (t : LocalTime) : ℚ :=
  (t.num_seconds_from_midnight : ℚ) + (1 / 1000000000) * (t.nanosecond : ℚ)

/-- Mirror of Rust `f32::round`: nearest integer, ties away from zero. -/
def fround (q : ℚ) : ℤ :=
  if 0 ≤ q then ⌊q + 1 / 2⌋ else ⌈q - 1 / 2⌉

/-- Mirror of `epi::IntegrationInfo` as built at lines 93-98. -/
structure IntegrationInfo where
  web_info : Option Unit
  cpu_usage : Option ℚ
  seconds_since_midnight : Option ℚ
  native_pixels_per_point : Option ℚ

/-- Per-tick environment: everything the tick reads from external
collaborators.  `app` bundles `app.update` plus `platform.end_frame()` as one
function from the integration info to the pair of outputs the loop consumes. -/
structure TickEnv where
  acquire_ok : Bool
  app : IntegrationInfo → AppOutput × EguiOutput
  frame_time : ℚ
  scale_factor : ℚ
  pixels_per_point : ℚ
  elapsed : ℚ
  local_time : LocalTime

/-- The mutable state the loop closure captures: the swapchain descriptor
`sc_desc`, the descriptor the live swapchain was created from, the
`previous_frame_time` cell (line 71) and the `control_flow` cell the closure
assigns through. -/
structure LoopState where
  sc_desc : SwapChainDescriptor
  swap_chain : SwapChainDescriptor
  previous_frame_time : Option ℚ
  control_flow : ControlFlow
deriving DecidableEq

/-- Observable effects of one invocation of the `redraw` closure. -/
structure RedrawEffects where
  acquired_from : SwapChainDescriptor
  app_invoked : Bool
  submitted : Bool
  redraw_requested : Bool
  set_inner_size_logical : Option (ℚ × ℚ)
deriving DecidableEq

/-- The `IntegrationInfo` built at lines 93-98: `cpu_usage` is the current
`previous_frame_time`, `seconds_since_midnight` the wall-clock reading, and
`native_pixels_per_point` the window's scale factor (line 89). -/
def integration_info (env : TickEnv) (s : LoopState) : IntegrationInfo :=
  { web_info := none
    cpu_usage := s.previous_frame_time
    seconds_since_midnight := some (seconds_since_midnight env.local_time)
    native_pixels_per_point := some env.scale_factor }

/-- Mirror of the `redraw` closure (lines 78-150).  On acquisition failure the
closure logs and returns with all captured state untouched.  On success it
invokes the app, stores the measured frame time, submits the encoded pass,
resizes the window if requested (the physical size `round(ppp * size)` is
converted to logical by dividing by the scale factor, line 131-140), and sets
the control flow: `Exit` on quit, else `Poll` plus `request_redraw()` when
`needs_repaint`, else `Wait` (lines 141-148). -/
def redraw (env : TickEnv) (s : LoopState) : LoopState × RedrawEffects :=
  if env.acquire_ok then
    let out := env.app (integration_info env s)
    let app_output := out.1
    let egui_output := out.2
    let set_inner : Option (ℚ × ℚ) :=
      match app_output.window_size with
      | some wh =>
        some (((fround (env.pixels_per_point * wh.1) : ℤ) : ℚ) / env.scale_factor,
              ((fround (env.pixels_per_point * wh.2) : ℤ) : ℚ) / env.scale_factor)
      | none => none
    let cf : ControlFlow :=
      if app_output.quit then ControlFlow.Exit
      else if egui_output.needs_repaint then ControlFlow.Poll
      else ControlFlow.Wait
    let req : Bool := !app_output.quit && egui_output.needs_repaint
    ({ s with previous_frame_time := some env.frame_time, control_flow := cf },
     { acquired_from := s.swap_chain
       app_invoked := true
       submitted := true
       redraw_requested := req
       set_inner_size_logical := set_inner })
  else
    (s, { acquired_from := s.swap_chain
          app_invoked := false
          submitted := false
          redraw_requested := false
          set_inner_size_logical := none })

/-- The native events the dispatch at lines 152-169 distinguishes. -/
inductive Event where
  | RedrawEventsCleared
  | RedrawRequested
  | Resized (width height : Nat)
  | MainEventsCleared
  | UserEvent
  | Other

/-- Observable effects of dispatching one native event. -/
structure EventEffects where
  redrawEff : Option RedrawEffects
  platform_handled : Bool
  window_redraw_requested : Bool
deriving DecidableEq

/-- Effects of an event that does nothing observable. -/
def noEventEffects : EventEffects :=
  { redrawEff := none, platform_handled := false, window_redraw_requested := false }

/-- Mirror of the `match event` dispatch (lines 152-169).  `isWindows` is the
value of `cfg!(windows)`.  A `Resized` event overwrites the descriptor's width
and height and recreates the swapchain from it (lines 159-161);
`MainEventsCleared` and the repaint user event are forwarded to
`platform.handle_event` and then request a redraw (lines 163-167). -/
def handle_event (isWindows : Bool) (env : TickEnv) (ev : Event) (s : LoopState) :
    LoopState × EventEffects :=
  match ev with
  | Event.RedrawEventsCleared =>
    if isWindows then
      let r := redraw env s
      (r.1, { redrawEff := some r.2, platform_handled := false,
              window_redraw_requested := false })
    else (s, noEventEffects)
  | Event.RedrawRequested =>
    if !isWindows then
      let r := redraw env s
      (r.1, { redrawEff := some r.2, platform_handled := false,
              window_redraw_requested := false })
    else (s, noEventEffects)
  | Event.Resized w h =>
    let sc : SwapChainDescriptor := { s.sc_desc with width := w, height := h }
    ({ s with sc_desc := sc, swap_chain := sc }, noEventEffects)
  | Event.MainEventsCleared =>
    (s, { redrawEff := none, platform_handled := true, window_redraw_requested := true })
  | Event.UserEvent =>
    (s, { redrawEff := none, platform_handled := true, window_redraw_requested := true })
  | Event.Other => (s, noEventEffects)

/-- The descriptor built at lines 51-57 from the window's initial inner size. -/
def init_sc_desc (width height : Nat) : SwapChainDescriptor :=
  { usage := TextureUsage.RENDER_ATTACHMENT
    format := TextureFormat.Rgba8UnormSrgb
    width := width
    height := height
    present_mode := PresentMode.Mailbox }

/-- The captured state as the loop starts: swapchain created from `sc_desc`
(line 58), `previous_frame_time = None` (line 71); winit starts the loop with
`ControlFlow::Poll`. -/
def initState (width height : Nat) : LoopState :=
  { sc_desc := init_sc_desc width height
    swap_chain := init_sc_desc width height
    previous_frame_time := none
    control_flow := ControlFlow.Poll }

/-- Run the dispatch over a chronological list of events, each paired with the
tick environment in force if that event triggers a redraw. -/
def runEvents (isWindows : Bool) : List (Event × TickEnv) → LoopState → LoopState
  | [], s => s
  | e :: rest, s => runEvents isWindows rest (handle_event isWindows e.2 e.1 s).1

/-- Width and height of the most recent `Resized` event of a trace, if any. -/
def lastResizeWH : List (Event × TickEnv) → Option (Nat × Nat)
  | [] => none
  | e :: rest =>
    match lastResizeWH rest with
    | some wh => some wh
    | none =>
      match e.1 with
      | Event.Resized w h => some (w, h)
      | _ => none

/-- Fold a trace over a current width/height pair: each `Resized` event
overwrites it, so the result is the most recently received window size, or the
initial pair when the trace contains no resize. -/
def trackWH : List (Event × TickEnv) → Nat × Nat → Nat × Nat
  | [], wh => wh
  | e :: rest, wh =>
    match e.1 with
    | Event.Resized w h => trackWH rest (w, h)
    | _ => trackWH rest wh

/-- Run a chronological list of redraw ticks (no other events in between). -/
def runTicks : List TickEnv → LoopState → LoopState
  | [], s => s
  | env :: rest, s => runTicks rest (redraw env s).1

/-- The frame time measured by the most recent tick of the list whose
acquisition succeeded, if any. -/
def lastSuccessFrameTime : List TickEnv → Option ℚ
  | [] => none
  | env :: rest =>
    match lastSuccessFrameTime rest with
    | some t => some t
    | none => if env.acquire_ok then some env.frame_time else none

/-- Mirror of the repaint signal's `EventLoopProxy` view: whether the event
loop is still running, and the queue of pending `RequestRepaintEvent` wakes. -/
structure EventLoopProxy where
  loop_alive : Bool
  queue : List Unit
deriving DecidableEq

/-- Mirror of `EventLoopProxy::send_event`: enqueue one user event and report
success, or fail (returning the event in `Err`) once the loop has ended. -/
def EventLoopProxy.send_event (p : EventLoopProxy) : EventLoopProxy × Bool :=
  if p.loop_alive then ({ p with queue := p.queue ++ [()] }, true) else (p, false)

/-- Mirror of `WgpuRepaintSignal::request_repaint` (lines 17-21): send the wake
event and discard the result with `.ok()`. -/
def request_repaint (p : EventLoopProxy) : EventLoopProxy :=
  p.send_event.1

/-- A concrete app that requests nothing: no quit, no resize, no repaint. -/
def idleApp : IntegrationInfo → AppOutput × EguiOutput :=
  fun _ => ({ quit := false, window_size := none }, { needs_repaint := false })

/-- A concrete tick environment whose acquisition succeeds and whose app is
`idleApp`. -/
def simpleTick : TickEnv :=
  { acquire_ok := true
    app := idleApp
    frame_time := 1
    scale_factor := 1
    pixels_per_point := 1
    elapsed := 0
    local_time := { num_seconds_from_midnight := 0, nanosecond := 0 } }

/-- A concrete tick on which the app requests a window size of 3 by 5 points,
with scale factor 2 and pixels-per-point 3/2. -/
def resizeRequestTick : TickEnv :=
  { simpleTick with
      scale_factor := 2
      pixels_per_point := 3 / 2
      app := fun _ =>
        ({ quit := false, window_size := some (3, 5) }, { needs_repaint := false }) }

/-- A concrete tick on which the app requests both quit and a repaint. -/
def quitAndRepaintTick : TickEnv :=
  { acquire_ok := true
    app := fun _ => ({ quit := true, window_size := none }, { needs_repaint := true })
    frame_time := 1
    scale_factor := 1
    pixels_per_point := 1
    elapsed := 0
    local_time := { num_seconds_from_midnight := 0, nanosecond := 0 } }

theorem redraw_sc_desc (env : TickEnv) (s : LoopState) :
    (redraw env s).1.sc_desc = s.sc_desc := by
  by_cases h : env.acquire_ok = true <;> simp [redraw, h]

theorem redraw_swap_chain (env : TickEnv) (s : LoopState) :
    (redraw env s).1.swap_chain = s.swap_chain := by
  by_cases h : env.acquire_ok = true <;> simp [redraw, h]

theorem redraw_acquired_from (env : TickEnv) (s : LoopState) :
    (redraw env s).2.acquired_from = s.swap_chain := by
  by_cases h : env.acquire_ok = true <;> simp [redraw, h]

/-- C1: on any successful tick whose app output has `quit = true`, the control
flow directive computed by the redraw closure is `Exit`, regardless of the
value of `needs_repaint` in the same output. -/
theorem c1_quit_yields_exit (env : TickEnv) (s : LoopState)
    (hacq : env.acquire_ok = true)
    (hq : (env.app (integration_info env s)).1.quit = true) :
    (redraw env s).1.control_flow = ControlFlow.Exit := by
  simp [redraw, hacq, hq]

/-- Witness for C1 at a concrete tick that quits while requesting a repaint. -/
theorem c1_quit_yields_exit_witness :
    (redraw quitAndRepaintTick (initState 800 600)).1.control_flow = ControlFlow.Exit :=
  c1_quit_yields_exit quitAndRepaintTick (initState 800 600) rfl rfl

/-- C2 counterexample: a reachable tick output with `needs_repaint = true` and
`quit = true` yields `Exit`, not `PollContinuously`, and issues no redraw
request, so the claim as stated fails on that output. -/
theorem c2_counterexample :
    (quitAndRepaintTick.app
        (integration_info quitAndRepaintTick (initState 800 600))).2.needs_repaint = true ∧
    (redraw quitAndRepaintTick (initState 800 600)).1.control_flow ≠ ControlFlow.Poll ∧
    (redraw quitAndRepaintTick (initState 800 600)).2.redraw_requested = false := by
  refine ⟨rfl, ?_, rfl⟩
  decide

/-- C2 (amended): on any successful tick whose output has `needs_repaint =
true` and `quit = false`, the computed control flow is `Poll` and a redraw
request is issued on the window. -/
theorem c2_repaint_polls_and_redraws (env : TickEnv) (s : LoopState)
    (hacq : env.acquire_ok = true)
    (hq : (env.app (integration_info env s)).1.quit = false)
    (hr : (env.app (integration_info env s)).2.needs_repaint = true) :
    (redraw env s).1.control_flow = ControlFlow.Poll ∧
    (redraw env s).2.redraw_requested = true := by
  constructor <;> simp [redraw, hacq, hq, hr]

/-- Witness for the amended C2 at a concrete repaint-requesting tick. -/
theorem c2_repaint_polls_and_redraws_witness :
    (redraw { acquire_ok := true
              app := fun _ => ({ quit := false, window_size := none },
                               { needs_repaint := true })
              frame_time := 1
              scale_factor := 1
              pixels_per_point := 1
              elapsed := 0
              local_time := { num_seconds_from_midnight := 0, nanosecond := 0 } }
        (initState 800 600)).1.control_flow = ControlFlow.Poll ∧
    (redraw { acquire_ok := true
              app := fun _ => ({ quit := false, window_size := none },
                               { needs_repaint := true })
              frame_time := 1
              scale_factor := 1
              pixels_per_point := 1
              elapsed := 0
              local_time := { num_seconds_from_midnight := 0, nanosecond := 0 } }
        (initState 800 600)).2.redraw_requested = true :=
  c2_repaint_polls_and_redraws _ _ rfl rfl rfl

/-- C4: a tick whose acquisition fails is skipped whole: the captured state
(including `previous_frame_time` and the control flow) is unchanged, the app
is not invoked, nothing is submitted, and the next successful tick is handed
the `previous_frame_time` from before the failed tick. -/
theorem c4_dropped_skips_tick (env1 env2 : TickEnv) (s : LoopState)
    (h1 : env1.acquire_ok = false) (h2 : env2.acquire_ok = true) :
    (redraw env1 s).1 = s ∧
    (redraw env1 s).2.app_invoked = false ∧
    (redraw env1 s).2.submitted = false ∧
    (integration_info env2 (redraw env1 s).1).cpu_usage = s.previous_frame_time ∧
    (redraw env2 (redraw env1 s).1).1.previous_frame_time = some env2.frame_time := by
  refine ⟨?_, ?_, ?_, ?_, ?_⟩ <;> simp [redraw, integration_info, h1, h2]

/-- Witness for C4: a dropped tick followed by a successful one. -/
theorem c4_dropped_skips_tick_witness :
    (redraw { simpleTick with acquire_ok := false } (initState 800 600)).1 =
        initState 800 600 ∧
    (redraw { simpleTick with acquire_ok := false } (initState 800 600)).2.app_invoked =
        false ∧
    (redraw { simpleTick with acquire_ok := false } (initState 800 600)).2.submitted =
        false ∧
    (integration_info simpleTick
        (redraw { simpleTick with acquire_ok := false } (initState 800 600)).1).cpu_usage =
      (initState 800 600).previous_frame_time ∧
    (redraw simpleTick
        (redraw { simpleTick with acquire_ok := false } (initState 800 600)).1).1.previous_frame_time =
      some simpleTick.frame_time :=
  c4_dropped_skips_tick { simpleTick with acquire_ok := false } simpleTick
    (initState 800 600) rfl rfl

/-- C8: `request_repaint` is a total function on the proxy model: while the
loop is alive it enqueues exactly one wake event, and once the loop has
terminated the failed send is discarded and the proxy is unchanged. -/
theorem c8_request_repaint_total (p : EventLoopProxy) :
    (p.loop_alive = true → request_repaint p = { p with queue := p.queue ++ [()] }) ∧
    (p.loop_alive = false → request_repaint p = p) := by
  constructor <;> intro h <;> simp [request_repaint, EventLoopProxy.send_event, h]

/-- Witness for C8 on a live and on a terminated proxy. -/
theorem c8_request_repaint_total_witness :
    request_repaint { loop_alive := true, queue := [] } =
      { loop_alive := true, queue := [()] } ∧
    request_repaint { loop_alive := false, queue := [] } =
      { loop_alive := false, queue := [] } :=
  ⟨(c8_request_repaint_total { loop_alive := true, queue := [] }).1 rfl,
   (c8_request_repaint_total { loop_alive := false, queue := [] }).2 rfl⟩

/-- C10: dispatching a `Resized` event only overwrites the descriptor's width
and height and recreates the swapchain from it; the event is not forwarded to
the UI framework, no redraw is requested or executed, and `control_flow` and
`previous_frame_time` are unchanged. -/
theorem c10_resize_only_reconfigures (isW : Bool) (env : TickEnv) (w h : Nat)
    (s : LoopState) :
    (handle_event isW env (Event.Resized w h) s).1 =
      { s with sc_desc := { s.sc_desc with width := w, height := h },
               swap_chain := { s.sc_desc with width := w, height := h } } ∧
    (handle_event isW env (Event.Resized w h) s).1.control_flow = s.control_flow ∧
    (handle_event isW env (Event.Resized w h) s).1.previous_frame_time =
        s.previous_frame_time ∧
    (handle_event isW env (Event.Resized w h) s).2 = noEventEffects :=
  ⟨rfl, rfl, rfl, rfl⟩

theorem runTicks_previous_frame_time (pre : List TickEnv) (s : LoopState) :
    (runTicks pre s).previous_frame_time =
      match lastSuccessFrameTime pre with
      | some t => some t
      | none => s.previous_frame_time := by
  induction pre generalizing s with
  | nil => rfl
  | cons env rest ih =>
    simp only [runTicks, lastSuccessFrameTime]
    rw [ih]
    by_cases h : env.acquire_ok = true <;>
      cases hl : lastSuccessFrameTime rest <;> simp [redraw, h]

/-- C5: the `cpu_usage` handed to the app on a successful tick is the frame
time measured by the most recent preceding successful tick (`none` when no
tick has completed yet), and only after the app call of the current tick is
its own measured frame time stored. -/
theorem c5_one_tick_lag (pre : List TickEnv) (env : TickEnv) (width height : Nat)
    (hacq : env.acquire_ok = true) :
    (integration_info env (runTicks pre (initState width height))).cpu_usage =
        lastSuccessFrameTime pre ∧
    (redraw env (runTicks pre (initState width height))).1.previous_frame_time =
        some env.frame_time := by
  constructor
  · show (runTicks pre (initState width height)).previous_frame_time = _
    rw [runTicks_previous_frame_time]
    cases hl : lastSuccessFrameTime pre <;> simp [initState]
  · simp [redraw, hacq]

/-- Witness for C5: two successful ticks; the second sees the first's
measured frame time. -/
theorem c5_one_tick_lag_witness :
    (integration_info simpleTick
        (runTicks [{ simpleTick with frame_time := 7 }] (initState 800 600))).cpu_usage =
      lastSuccessFrameTime [{ simpleTick with frame_time := 7 }] ∧
    (redraw simpleTick
        (runTicks [{ simpleTick with frame_time := 7 }]
          (initState 800 600))).1.previous_frame_time = some simpleTick.frame_time :=
  c5_one_tick_lag [{ simpleTick with frame_time := 7 }] simpleTick 800 600 rfl

/-- C7: when the app requests a window size on a successful tick, the logical
size passed to `set_inner_size`, converted back to physical pixels by the
window system (multiplication by the scale factor), equals the requested size
scaled by the UI framework's `pixels_per_point` and rounded. -/
theorem c7_requested_size_in_physical_pixels (env : TickEnv) (s : LoopState)
    (x y : ℚ) (hacq : env.acquire_ok = true)
    (hws : (env.app (integration_info env s)).1.window_size = some (x, y))
    (hsf : env.scale_factor ≠ 0) :
    ((redraw env s).2.set_inner_size_logical).map
        (fun lw => (lw.1 * env.scale_factor, lw.2 * env.scale_factor)) =
      some (((fround (env.pixels_per_point * x) : ℤ) : ℚ),
            ((fround (env.pixels_per_point * y) : ℤ) : ℚ)) := by
  simp only [redraw, hacq, if_true, hws]
  simp [div_mul_cancel₀ _ hsf]

/-- Witness for C7 at a concrete requested size with scale factor 2 and
pixels-per-point 3/2. -/
theorem c7_requested_size_in_physical_pixels_witness :
    ((redraw resizeRequestTick (initState 800 600)).2.set_inner_size_logical).map
        (fun lw => (lw.1 * resizeRequestTick.scale_factor,
                    lw.2 * resizeRequestTick.scale_factor)) =
      some (((fround (resizeRequestTick.pixels_per_point * 3) : ℤ) : ℚ),
            ((fround (resizeRequestTick.pixels_per_point * 5) : ℤ) : ℚ)) :=
  c7_requested_size_in_physical_pixels resizeRequestTick (initState 800 600) 3 5
    rfl rfl (by decide)

/-- C6: over valid (non-leap-second) local times, `seconds_since_midnight` is
nonnegative, strictly below 86400, monotone non-decreasing within a day, and
immediately after the day wraps (whole seconds back at 0) its value is below
1. -/
theorem c6_seconds_since_midnight_range_mono (t1 t2 t3 : LocalTime)
    (h1 : t1.valid) (h2 : t2.valid) (h3 : t3.valid)
    (hmono : t1.num_seconds_from_midnight < t2.num_seconds_from_midnight ∨
      (t1.num_seconds_from_midnight = t2.num_seconds_from_midnight ∧
       t1.nanosecond ≤ t2.nanosecond))
    (ht3 : t3.num_seconds_from_midnight = 0) :
    0 ≤ seconds_since_midnight t1 ∧
    seconds_since_midnight t1 < 86400 ∧
    seconds_since_midnight t1 ≤ seconds_since_midnight t2 ∧
    seconds_since_midnight t3 < 1 := by
  obtain ⟨hs1, hn1⟩ := h1
  obtain ⟨hs2, hn2⟩ := h2
  obtain ⟨hs3, hn3⟩ := h3
  have k1 : (1 / 1000000000 : ℚ) * (t1.nanosecond : ℚ) < 1 := by
    rw [one_div_mul_eq_div, div_lt_one (by norm_num)]
    exact_mod_cast hn1
  have k2 : (0 : ℚ) ≤ (1 / 1000000000 : ℚ) * (t2.nanosecond : ℚ) := by positivity
  have k3 : (1 / 1000000000 : ℚ) * (t3.nanosecond : ℚ) < 1 := by
    rw [one_div_mul_eq_div, div_lt_one (by norm_num)]
    exact_mod_cast hn3
  have hc1 : (t1.num_seconds_from_midnight : ℚ) ≤ 86399 := by
    exact_mod_cast Nat.le_of_lt_succ hs1
  refine ⟨?_, ?_, ?_, ?_⟩
  · unfold seconds_since_midnight
    positivity
  · unfold seconds_since_midnight
    linarith
  · unfold seconds_since_midnight
    rcases hmono with hlt | ⟨heq, hle⟩
    · have : (t1.num_seconds_from_midnight : ℚ) + 1 ≤
          (t2.num_seconds_from_midnight : ℚ) := by
        exact_mod_cast Nat.succ_le_of_lt hlt
      linarith
    · have hn : (t1.nanosecond : ℚ) ≤ (t2.nanosecond : ℚ) := by exact_mod_cast hle
      rw [heq]
      have : (1 / 1000000000 : ℚ) * (t1.nanosecond : ℚ) ≤
          (1 / 1000000000 : ℚ) * (t2.nanosecond : ℚ) := by
        apply mul_le_mul_of_nonneg_left hn
        norm_num
      linarith
  · unfold seconds_since_midnight
    rw [ht3]
    push_cast
    linarith

/-- Witness for C6 at the last representable instant of a day and the first
instant of the next. -/
theorem c6_seconds_since_midnight_range_mono_witness :
    0 ≤ seconds_since_midnight
        { num_seconds_from_midnight := 86399, nanosecond := 999999998 } ∧
    seconds_since_midnight
        { num_seconds_from_midnight := 86399, nanosecond := 999999998 } < 86400 ∧
    seconds_since_midnight
        { num_seconds_from_midnight := 86399, nanosecond := 999999998 } ≤
      seconds_since_midnight
        { num_seconds_from_midnight := 86399, nanosecond := 999999999 } ∧
    seconds_since_midnight { num_seconds_from_midnight := 0, nanosecond := 1 } < 1 :=
  c6_seconds_since_midnight_range_mono
    { num_seconds_from_midnight := 86399, nanosecond := 999999998 }
    { num_seconds_from_midnight := 86399, nanosecond := 999999999 }
    { num_seconds_from_midnight := 0, nanosecond := 1 }
    (by decide) (by decide) (by decide) (by decide) rfl

theorem trackWH_eq_lastResizeWH (tr : List (Event × TickEnv)) (wh : Nat × Nat) :
    trackWH tr wh = (lastResizeWH tr).getD wh := by
  induction tr generalizing wh with
  | nil => rfl
  | cons e rest ih =>
    obtain ⟨ev, env⟩ := e
    cases ev <;> simp only [trackWH, lastResizeWH] <;> rw [ih] <;>
      cases hl : lastResizeWH rest <;> simp

theorem runEvents_dims (isW : Bool) (tr : List (Event × TickEnv)) (s : LoopState)
    (h : s.swap_chain = s.sc_desc) :
    (runEvents isW tr s).swap_chain = (runEvents isW tr s).sc_desc ∧
    ((runEvents isW tr s).sc_desc.width, (runEvents isW tr s).sc_desc.height) =
      trackWH tr (s.sc_desc.width, s.sc_desc.height) := by
  induction tr generalizing s with
  | nil => exact ⟨h, rfl⟩
  | cons e rest ih =>
    obtain ⟨ev, env⟩ := e
    have hredraw : (redraw env s).1.swap_chain = (redraw env s).1.sc_desc := by
      rw [redraw_swap_chain, redraw_sc_desc]; exact h
    have hred := ih (redraw env s).1 hredraw
    rw [redraw_sc_desc] at hred
    cases ev with
    | RedrawEventsCleared =>
      cases isW with
      | true => exact hred
      | false => exact ih s h
    | RedrawRequested =>
      cases isW with
      | true => exact ih s h
      | false => exact hred
    | Resized w hh =>
      exact ih { s with sc_desc := { s.sc_desc with width := w, height := hh },
                        swap_chain := { s.sc_desc with width := w, height := hh } } rfl
    | MainEventsCleared => exact ih s h
    | UserEvent => exact ih s h
    | Other => exact ih s h

theorem handle_event_acquired_from (isW : Bool) (env : TickEnv) (ev : Event)
    (s : LoopState) (reff : RedrawEffects)
    (hr : (handle_event isW env ev s).2.redrawEff = some reff) :
    reff.acquired_from = s.swap_chain := by
  cases ev <;> cases isW <;> simp [handle_event, noEventEffects] at hr <;>
    (subst hr; exact redraw_acquired_from env s)

/-- C3: whenever a frame acquisition is attempted after any trace of events,
the swapchain configuration it runs against has the width and height of the
most recent `Resized` event of the trace, or the initial window size when no
resize was received. -/
theorem c3_acquisition_uses_latest_size (isW : Bool) (tr : List (Event × TickEnv))
    (width height : Nat) (env : TickEnv) (ev : Event) (reff : RedrawEffects)
    (hr : (handle_event isW env ev
        (runEvents isW tr (initState width height))).2.redrawEff = some reff) :
    (reff.acquired_from.width, reff.acquired_from.height) =
      (lastResizeWH tr).getD (width, height) := by
  have hacq := handle_event_acquired_from isW env ev _ reff hr
  have hinv := runEvents_dims isW tr (initState width height) rfl
  rw [hacq, hinv.1, ← trackWH_eq_lastResizeWH]
  exact hinv.2

/-- Witness for C3: the window starts at 800 by 600, one resize to 1024 by 768
arrives before the first tick, and the first acquisition runs against the
1024 by 768 configuration. -/
theorem c3_acquisition_uses_latest_size_witness :
    ((({ usage := TextureUsage.RENDER_ATTACHMENT
         format := TextureFormat.Rgba8UnormSrgb
         width := 1024
         height := 768
         present_mode := PresentMode.Mailbox } : SwapChainDescriptor)).width,
     (({ usage := TextureUsage.RENDER_ATTACHMENT
         format := TextureFormat.Rgba8UnormSrgb
         width := 1024
         height := 768
         present_mode := PresentMode.Mailbox } : SwapChainDescriptor)).height) =
      (lastResizeWH [(Event.Resized 1024 768, simpleTick)]).getD (800, 600) :=
  c3_acquisition_uses_latest_size false [(Event.Resized 1024 768, simpleTick)]
    800 600 simpleTick Event.RedrawRequested
    { acquired_from := { usage := TextureUsage.RENDER_ATTACHMENT
                         format := TextureFormat.Rgba8UnormSrgb
                         width := 1024
                         height := 768
                         present_mode := PresentMode.Mailbox }
      app_invoked := true
      submitted := true
      redraw_requested := false
      set_inner_size_logical := none }
    rfl

theorem runEvents_format_present_mode (isW : Bool) (tr : List (Event × TickEnv))
    (s : LoopState) (f : TextureFormat) (pm : PresentMode)
    (h1 : s.sc_desc.format = f) (h2 : s.sc_desc.present_mode = pm)
    (h3 : s.swap_chain.format = f) (h4 : s.swap_chain.present_mode = pm) :
    (runEvents isW tr s).sc_desc.format = f ∧
    (runEvents isW tr s).sc_desc.present_mode = pm ∧
    (runEvents isW tr s).swap_chain.format = f ∧
    (runEvents isW tr s).swap_chain.present_mode = pm := by
  induction tr generalizing s with
  | nil => exact ⟨h1, h2, h3, h4⟩
  | cons e rest ih =>
    obtain ⟨ev, env⟩ := e
    have hr1 : (redraw env s).1.sc_desc.format = f := by rw [redraw_sc_desc]; exact h1
    have hr2 : (redraw env s).1.sc_desc.present_mode = pm := by
      rw [redraw_sc_desc]; exact h2
    have hr3 : (redraw env s).1.swap_chain.format = f := by
      rw [redraw_swap_chain]; exact h3
    have hr4 : (redraw env s).1.swap_chain.present_mode = pm := by
      rw [redraw_swap_chain]; exact h4
    cases ev with
    | RedrawEventsCleared =>
      cases isW with
      | true => exact ih _ hr1 hr2 hr3 hr4
      | false => exact ih s h1 h2 h3 h4
    | RedrawRequested =>
      cases isW with
      | true => exact ih s h1 h2 h3 h4
      | false => exact ih _ hr1 hr2 hr3 hr4
    | Resized w hh =>
      exact ih { s with sc_desc := { s.sc_desc with width := w, height := hh },
                        swap_chain := { s.sc_desc with width := w, height := hh } }
        h1 h2 h1 h2
    | MainEventsCleared => exact ih s h1 h2 h3 h4
    | UserEvent => exact ih s h1 h2 h3 h4
    | Other => exact ih s h1 h2 h3 h4

/-- C9: starting from the descriptor built at startup, the pixel format stays
`Rgba8UnormSrgb` and the present mode stays `Mailbox` over every event trace,
for both the stored descriptor and the live swapchain; a `Resized` event
rewrites only the width and height fields of the descriptor. -/
theorem c9_format_and_present_mode_fixed (isW : Bool) (tr : List (Event × TickEnv))
    (width height : Nat) (env : TickEnv) (w h : Nat) (s : LoopState) :
    (runEvents isW tr (initState width height)).sc_desc.format =
        TextureFormat.Rgba8UnormSrgb ∧
    (runEvents isW tr (initState width height)).sc_desc.present_mode =
        PresentMode.Mailbox ∧
    (runEvents isW tr (initState width height)).swap_chain.format =
        TextureFormat.Rgba8UnormSrgb ∧
    (runEvents isW tr (initState width height)).swap_chain.present_mode =
        PresentMode.Mailbox ∧
    (handle_event isW env (Event.Resized w h) s).1.sc_desc =
      { s.sc_desc with width := w, height := h } := by
  have hfix := runEvents_format_present_mode isW tr (initState width height)
    TextureFormat.Rgba8UnormSrgb PresentMode.Mailbox rfl rfl rfl rfl
  exact ⟨hfix.1, hfix.2.1, hfix.2.2.1, hfix.2.2.2, rfl⟩

end EguiWinitWgpu
